import Mathlib

/-!
# Word-chain bot: a shallow embedding of the validation / scoring engine

Embeds the message-processing pipeline of `src/main.py` (the `Config`
dataclass, `Bot.on_message`, `Bot.handle_mistake`, `Bot.is_word_blacklisted`,
`Bot.is_word_whitelisted`, `Bot.is_word_in_cache`, `Bot.add_to_cache`) and the
`ServerConfig.reaction_emoji` variant of `src/model.py`, as pure functions over
an explicit state.  The SQLite tables of `src/model.py` become finite maps /
membership lists; the Wiktionary lookup becomes an oracle argument carrying the
verdict that `Bot.get_query_response` would have produced; side effects that the
claims talk about (whether the blacklist was consulted, whether an API query was
started / resolved) are returned as an explicit effects record.

Constants imported by `main.py` from the module `consts` (the global word
lists, `POSSIBLE_CHARACTERS`, `MISTAKE_PENALTY`, `HISTORY_LENGTH`,
`SPECIAL_REACTION_EMOJIS`, the `SINGLE_PLAYER` toggle) are not under `src/`;
they are process-wide static data and enter here as a parameter record
`Globals`.  The karma scorer `calculate_total_karma` (imported from the module
`data`, also absent from `src/`) is modelled from the spec, see its docstring.

Python floats are modelled as `ℚ`; Discord snowflake ids as `ℕ`.  The guards
that precede word processing in `on_message` (author is the bot itself, message
not in the configured channel) route to message transport and are outside the
embedded function: `on_message` here receives a message already known to be in
the game channel and from a human author.  The bookkeeping fields
`Bot._busy` / `Bot._participating_users` only drive deferred role maintenance
and are not part of any claim's state, so they are omitted.
-/

namespace WordChain

/-- Verdict of `Bot.get_query_response` (main.py lines 565-608): the three
constants `API_RESPONSE_WORD_EXISTS` (1), `API_RESPONSE_WORD_DOESNT_EXIST` (0)
and `API_RESPONSE_ERROR` (-1).  Passed to `on_message` as an oracle for what
the Wiktionary query would resolve to, were it started and awaited. -/
inductive ApiResponse where
  | wordExists
  | wordDoesntExist
  | error
deriving DecidableEq, Repr

/-- One row of the `member` table (model.py `MemberModel`): per
(server, member) cumulative score, correct count, wrong count, karma.
`score` is an `Int`: the SQL decrement `score = score - 1` has no floor. -/
structure MemberRow where
  score : Int
  correct : Nat
  wrong : Nat
  karma : ℚ
deriving DecidableEq, Repr

/-- The database tables touched by the pipeline (model.py): `member` as an
association list keyed by (server_id, member_id); the `used_words`,
`word_cache`, `blacklist` and `whitelist` tables as membership lists keyed
exactly as their primary keys are. -/
structure DB where
  members : List ((Nat × Nat) × MemberRow)
  used_words : List (Nat × String)
  word_cache : List String
  blacklist : List (Nat × String)
  whitelist : List (Nat × String)
deriving DecidableEq, Repr

/-- `SELECT ... WHERE server_id = s AND member_id = m` on the `member` table. -/
def DB.memberLookup (db : DB) (server member : Nat) : Option MemberRow :=
  db.members.lookup (server, member)

/-- The lazily-inserted zero row of main.py lines 329-339. -/
def zeroMemberRow : MemberRow := ⟨0, 0, 0, 0⟩

/-- main.py lines 316-339: insert a zero row for (server, member) unless one
exists, committed before any validation step runs. -/
def DB.insertMemberIfAbsent (db : DB) (server member : Nat) : DB :=
  if (db.memberLookup server member).isSome then db
  else { db with members := ((server, member), zeroMemberRow) :: db.members }

/-- `UPDATE member SET ... WHERE server_id = s AND member_id = m`: rewrite
every row whose key matches (the primary key makes it at most one). -/
def DB.updateMember (db : DB) (server member : Nat) (f : MemberRow → MemberRow) : DB :=
  { db with members :=
      db.members.map (fun p => if p.1 = (server, member) then (p.1, f p.2) else p) }

/-- The process-wide static data that `main.py` imports from the module
`consts` (not under `src/`), plus the base-score table used by the karma
scorer.  All are parameters of the embedding; no claim depends on the concrete
contents of the lists. -/
structure Globals where
  /-- `POSSIBLE_CHARACTERS`: the allowed alphabet (letters plus hyphen). -/
  possible_characters : List Char
  /-- `GLOBAL_BLACKLIST_2_LETTER_WORDS`. -/
  blacklist2 : List String
  /-- `GLOBAL_BLACKLIST_N_LETTER_WORDS`. -/
  blacklistN : List String
  /-- `GLOBAL_WHITELIST_3_LETTER_WORDS`. -/
  whitelist3 : List String
  /-- `SPECIAL_REACTION_EMOJIS`: word-keyed override for the reaction. -/
  special_reaction_emojis : List (String × String)
  /-- `MISTAKE_PENALTY`: the fixed karma penalty applied on a mistake. -/
  mistake_penalty : ℚ
  /-- `HISTORY_LENGTH`: capacity of each player's recent-words deque. -/
  history_length : Nat
  /-- `SINGLE_PLAYER`: disables the turn-order (wrong member) check. -/
  single_player : Bool
  /-- Modelled from the spec: the "domain-specific positive/negative base
  table" of KarmaScorer (§4.6), a deterministic function of the word (its
  final letter / length).  The table itself lives in the absent module
  `data` and is abstract here. -/
  base_karma : String → ℚ

/-- Python `str.lower` (ASCII range, which covers the embedded alphabets):
defined structurally over the character list so that it evaluates by kernel
reduction (`String.map` recurses on byte positions and does not). -/
def lowercase (s : String) : String := ⟨s.data.map Char.toLower⟩

/-- The final letter of a word (`word[-1:]` in the Python sources), `none`
for the empty string. -/
def endingLetter (w : String) : Option Char := w.data.getLast?

/-- Modelled from the spec: `calculate_total_karma` is imported in `main.py`
from the module `data` (the tests in `src/test.py` import it from
`karma_calcs`); neither module is under `src/`.  Spec §4.6: the base score is
a deterministic function of the word; "If base score is negative, return it
unmodified"; if non-negative, "apply decay proportional to how many of the
last N (bounded window, e.g. 5) submissions by the same player ended in the
same letter".  With `reps` such entries out of a window of capacity
`history_length`, the reward is scaled by `(history_length + 1 - reps) /
(history_length + 1)`, which is positive (the window bounds `reps`) and
strictly decreasing in `reps`, matching `src/test.py`
(`test_negative_score_irrelevant_history`, `test_decrease_on_same_ending_letter`). -/
def calculate_total_karma (g : Globals) (word : String) (last_words : List String) : ℚ :=
  let base := g.base_karma word
  if base < 0 then base
  else
    let reps := (last_words.filter (fun w => endingLetter w = endingLetter word)).length
    base * ((g.history_length : ℚ) + 1 - reps) / ((g.history_length : ℚ) + 1)

/-- The `Config` dataclass of main.py (lines 35-104), restricted to the game
fields (`channel_id` / role ids are transport configuration; whether the
failed role resolved to an actual role object lives in `BotState.failedRole`). -/
structure Config where
  current_count : Nat
  current_word : Option String
  high_score : Nat
  current_member_id : Option Nat
  put_high_score_emoji : Bool
  failed_member_id : Option Nat
  correct_inputs_by_failed_member : Nat
deriving DecidableEq, Repr

/-- `Config.update_current` (main.py lines 65-78): increment the count, set
the word and holder, then fold the new count into the high score. -/
def Config.update_current (c : Config) (member_id : Nat) (current_word : String) : Config :=
  { c with
    current_count := c.current_count + 1,
    current_word := some current_word,
    current_member_id := some member_id,
    high_score := max c.high_score (c.current_count + 1) }

/-- `Config.reset` (main.py lines 80-88): zero the count, the failed member's
streak and the high-score-emoji flag; keep `current_word` and
`current_member_id`. -/
def Config.reset (c : Config) : Config :=
  { c with
    current_count := 0,
    correct_inputs_by_failed_member := 0,
    put_high_score_emoji := false }

/-- The `{100: 💯, 69: 😏, 666: 👹}` round-number table shared by both
`reaction_emoji` implementations. -/
def specialEmoji (n : Nat) : Option String :=
  if n = 100 then some "💯"
  else if n = 69 then some "😏"
  else if n = 666 then some "👹"
  else none

/-- `Config.reaction_emoji` (main.py lines 90-104): returns the emoji and the
(possibly) updated config, since hitting the high score for the first time in
a streak sets `put_high_score_emoji`. -/
def Config.reaction_emoji (c : Config) : String × Config :=
  if c.current_count = c.high_score ∧ c.put_high_score_emoji = false then
    ("🎉", { c with put_high_score_emoji := true })
  else
    ((specialEmoji c.current_count).getD "✅", c)

/-- The game-relevant fields of `ServerConfig` (model.py lines 72-86). -/
structure ServerConfig where
  current_count : Nat
  current_word : Option String
  high_score : Nat
  last_member_id : Option Nat
  used_high_score_emoji : Bool
  failed_member_id : Option Nat
  correct_inputs_by_failed_member : Nat
deriving DecidableEq, Repr

/-- `ServerConfig.reaction_emoji` (model.py lines 109-126): like the main.py
variant, but a repeat of the high score inside the same streak draws from the
round-number table with the alternative generic marker ☑️. -/
def ServerConfig.reaction_emoji (c : ServerConfig) : String × ServerConfig :=
  if c.current_count = c.high_score then
    if c.used_high_score_emoji = false then
      ("🎉", { c with used_high_score_emoji := true })
    else
      ((specialEmoji c.current_count).getD "☑️", c)
  else
    ((specialEmoji c.current_count).getD "✅", c)

/-- In-memory bot state around the database: the config, the pending-cache
set `Bot._cached_words` (Python `None` and the empty set are observationally
the same falsy start), the per-player recent-words deques `Bot._history`
(a `defaultdict` of `deque(maxlen=HISTORY_LENGTH)`, as an association list
defaulting to empty), and whether `Bot.failed_role` resolved to a role. -/
structure BotState where
  config : Config
  db : DB
  cachedWords : List String
  history : List (Nat × List String)
  failedRole : Bool
deriving DecidableEq, Repr

/-- Read a player's deque (`defaultdict`: absent key reads as empty). -/
def historyGet (h : List (Nat × List String)) (member : Nat) : List String :=
  (h.lookup member).getD []

/-- Write a player's deque back into the map. -/
def historySet (h : List (Nat × List String)) (member : Nat) (v : List String) :
    List (Nat × List String) :=
  if (h.lookup member).isSome then
    h.map (fun p => if p.1 = member then (member, v) else p)
  else (member, v) :: h

/-- `deque(maxlen=n).append`: append at the right, evicting from the left
once the capacity is exceeded. -/
def dequeAppend (maxlen : Nat) (xs : List String) (w : String) : List String :=
  let ys := xs ++ [w]
  if maxlen < ys.length then ys.drop (ys.length - maxlen) else ys

/-- Python set `add` on the pending-cache set. -/
def setAdd (w : String) (s : List String) : List String :=
  if w ∈ s then s else w :: s

/-- Python truthiness of `Optional[int]` (`None` and `0` are falsy),
as used by `self._config.current_member_id and ...` (main.py line 400). -/
def optNatTruthy : Option Nat → Bool
  | none => false
  | some n => n != 0

/-- Python truthiness of `Optional[str]` (`None` and `""` are falsy),
as used by `if self._config.current_word and ...` (main.py line 413). -/
def optStrTruthy : Option String → Bool
  | none => false
  | some s => s != ""

/-- `Bot.is_word_whitelisted` (main.py lines 752-779): membership in the
per-server `whitelist` table. -/
def is_word_whitelisted (db : DB) (word : String) (server_id : Nat) : Bool :=
  (server_id, word) ∈ db.whitelist

/-- `Bot.is_word_in_cache` (main.py lines 663-685): membership in the
`word_cache` table. -/
def is_word_in_cache (db : DB) (word : String) : Bool :=
  word ∈ db.word_cache

/-- `Bot.is_word_blacklisted` (main.py lines 704-750).  `connection` records
whether an `AsyncConnection` was passed: the per-server `blacklist` table is
consulted only when *both* `server_id` and `connection` are present; global
lists first, and a 3-letter word outside the global 3-letter whitelist is
blacklisted outright. -/
def is_word_blacklisted (g : Globals) (db : DB) (word : String)
    (server_id : Option Nat) (connection : Bool) : Bool :=
  if word ∈ g.blacklist2 ∨ word ∈ g.blacklistN then true
  else if word.length = 3 ∧ word ∉ g.whitelist3 then true
  else
    match server_id, connection with
    | some sid, true => (sid, word) ∈ db.blacklist
    | _, _ => false

/-- Outcome of processing one message, mirroring the terminal branches of
`Bot.on_message`. -/
inductive Outcome where
  /-- Illegal characters or empty content: silently ignored. -/
  | ignored
  /-- main.py lines 303-307: single-letter warning, chain not broken. -/
  | singleLetter
  /-- main.py lines 351-359: soft rejection, chain not broken. -/
  | blacklisted
  /-- main.py lines 386-395: repetition, soft rejection, chain not broken. -/
  | alreadyUsed
  /-- main.py lines 400-408: turn-order mistake. -/
  | mistakeWrongMember
  /-- main.py lines 413-421: starting-letter mistake. -/
  | mistakeWrongLetter
  /-- main.py lines 429-444: the resolved lookup says the word doesn't exist. -/
  | mistakeNonexistent
  /-- main.py lines 446-455: the resolved lookup errored, word not counted. -/
  | backendError
  /-- main.py lines 457-504: accepted, with the reaction emoji added. -/
  | accepted (emoji : String)
deriving DecidableEq, Repr

/-- `true` exactly on the accepted outcome. -/
def Outcome.isAccepted : Outcome → Bool
  | accepted _ => true
  | _ => false

/-- Observable side effects of one `on_message` run: whether
`is_word_blacklisted` was evaluated (it sits behind a short-circuiting
`not word_whitelisted and ...`), whether an API query was started
(`start_api_query`), and whether its future was resolved
(`get_query_response`). -/
structure Effects where
  blacklistChecked : Bool
  apiQueryStarted : Bool
  apiQueryResolved : Bool
deriving DecidableEq, Repr

/-- Result of one `on_message` run. -/
structure StepResult where
  state : BotState
  outcome : Outcome
  effects : Effects

/-- `Bot.handle_mistake` (main.py lines 508-532): designate the author as the
failed member (when a failed role is configured), reset the chain stats
(keeping `current_word` / `current_member_id`), and apply score -1 / wrong +1
/ karma clamped at `max(0, karma - MISTAKE_PENALTY)`. -/
def handle_mistake (g : Globals) (st : BotState) (server_id author_id : Nat) : BotState :=
  let cfg0 := if st.failedRole then
      { st.config with failed_member_id := some author_id }
    else st.config
  let cfg1 := cfg0.reset
  let db1 := st.db.updateMember server_id author_id (fun r =>
      { r with
        score := r.score - 1,
        wrong := r.wrong + 1,
        karma := max 0 (r.karma - g.mistake_penalty) })
  { st with config := cfg1, db := db1 }

/-- The accepted branch of `Bot.on_message` (main.py lines 457-504): advance
the config, pick the reaction emoji (the Python default argument
`self._config.reaction_emoji()` is evaluated — and its flag side effect
happens — even when `SPECIAL_REACTION_EMOJIS` overrides the emoji), score
karma against the recent-words deque *before* appending to it, apply
score +1 / correct +1 / karma clamped at `max(0, karma + delta)`, record the
used word, stage the word for the cache, and run the failed-member streak
bookkeeping. -/
def acceptSubmission (g : Globals) (st : BotState) (server_id author_id : Nat)
    (word : String) : BotState × String :=
  let cfg1 := st.config.update_current author_id word
  let emojiCfg := cfg1.reaction_emoji
  let emoji := ((g.special_reaction_emojis.lookup word).getD emojiCfg.1)
  let cfg2 := emojiCfg.2
  let last_words := historyGet st.history author_id
  let karma := calculate_total_karma g word last_words
  let history1 := historySet st.history author_id
      (dequeAppend g.history_length last_words word)
  let db1 := st.db.updateMember server_id author_id (fun r =>
      { r with
        score := r.score + 1,
        correct := r.correct + 1,
        karma := max 0 (r.karma + karma) })
  let db2 := { db1 with used_words := db1.used_words ++ [(server_id, word)] }
  let cached1 := setAdd word st.cachedWords
  let cfg3 :=
    if st.failedRole ∧ cfg2.failed_member_id = some author_id then
      if 30 ≤ cfg2.correct_inputs_by_failed_member + 1 then
        { cfg2 with failed_member_id := none, correct_inputs_by_failed_member := 0 }
      else
        { cfg2 with correct_inputs_by_failed_member :=
            cfg2.correct_inputs_by_failed_member + 1 }
    else cfg2
  ({ st with config := cfg3, db := db2, cachedWords := cached1, history := history1 }, emoji)

/-- `Bot.on_message` (main.py lines 274-504) for a message already in the
configured channel, from a human author.  `api` is the verdict
`get_query_response` would return, were the future started and resolved. -/
def on_message (g : Globals) (st : BotState) (server_id author_id : Nat)
    (content : String) (api : ApiResponse) : StepResult :=
  let word := lowercase content
  if ¬ word.toList.all (fun c => c ∈ g.possible_characters) then
    ⟨st, .ignored, ⟨false, false, false⟩⟩
  else if word.length = 0 then
    ⟨st, .ignored, ⟨false, false, false⟩⟩
  else if word.length = 1 then
    ⟨st, .singleLetter, ⟨false, false, false⟩⟩
  else
    -- lines 316-339: the member row is created (and committed) up front
    let st1 : BotState := { st with db := st.db.insertMemberIfAbsent server_id author_id }
    let word_whitelisted := is_word_whitelisted st1.db word server_id
    -- line 351: `if not word_whitelisted and await self.is_word_blacklisted(...)`
    if word_whitelisted = false ∧
        is_word_blacklisted g st1.db word (some server_id) true then
      ⟨st1, .blacklisted, ⟨true, false, false⟩⟩
    else
      let effBlacklist := !word_whitelisted
      -- lines 365-374: start the future only on whitelist *and* cache miss
      let futureStarted := !(word_whitelisted || is_word_in_cache st1.db word)
      -- lines 380-395: repetition check
      if (server_id, word) ∈ st1.db.used_words then
        ⟨st1, .alreadyUsed, ⟨effBlacklist, futureStarted, false⟩⟩
      -- lines 400-408: wrong member (truthiness guard on the stored id)
      else if g.single_player = false ∧ optNatTruthy st1.config.current_member_id ∧
          st1.config.current_member_id = some author_id then
        ⟨handle_mistake g st1 server_id author_id, .mistakeWrongMember,
          ⟨effBlacklist, futureStarted, false⟩⟩
      -- lines 413-421: wrong starting letter (truthiness guard on the word)
      else if optStrTruthy st1.config.current_word ∧
          word.data.head? ≠ endingLetter (st1.config.current_word.getD "") then
        ⟨handle_mistake g st1 server_id author_id, .mistakeWrongLetter,
          ⟨effBlacklist, futureStarted, false⟩⟩
      -- lines 426-455: resolve the future, if one was started
      else if futureStarted ∧ api = .wordDoesntExist then
        ⟨handle_mistake g st1 server_id author_id, .mistakeNonexistent,
          ⟨effBlacklist, futureStarted, true⟩⟩
      else if futureStarted ∧ api = .error then
        ⟨st1, .backendError, ⟨effBlacklist, futureStarted, true⟩⟩
      else
        -- lines 457-504
        let accepted := acceptSubmission g st1 server_id author_id word
        ⟨accepted.1, .accepted accepted.2, ⟨effBlacklist, futureStarted, futureStarted⟩⟩

/-- Columns of the `word_cache` table: model.py's `WordCacheModel` maps
exactly one column, `word`. -/
def wordCacheTableColumns : List String := ["word"]

/-- The column names the insert statement in `Bot.add_to_cache` supplies:
main.py line 700 writes `insert(WordCacheModel).values(words=word)` — the
keyword is `words`, not `word`. -/
def addToCacheInsertColumns : List String := ["words"]

/-- `Bot.add_to_cache` (main.py lines 687-702): drain `_cached_words` and,
for each word that is not globally blacklisted (no `server_id`, no
`connection`), run the `INSERT OR IGNORE` statement.  SQLAlchemy rejects an
insert whose supplied column names are not columns of the table
("Unconsumed column names"), which the embedding surfaces as `Except.error`. -/
def add_to_cache (g : Globals) (st : BotState) : Except String BotState :=
  if st.cachedWords = [] then pure st
  else
    let words := st.cachedWords
    let st1 : BotState := { st with cachedWords := [] }
    words.foldlM (fun s w =>
      if is_word_blacklisted g s.db w none false then pure s
      else if addToCacheInsertColumns.all (fun c => c ∈ wordCacheTableColumns) then
        pure { s with db := { s.db with
          word_cache := if w ∈ s.db.word_cache then s.db.word_cache
                        else s.db.word_cache ++ [w] } }
      else Except.error "CompileError: Unconsumed column names: words") st1

/-- A whole play session: fold `on_message` over a list of submissions, each
carrying its server, author, raw content and the lookup verdict oracle. -/
structure Submission where
  server_id : Nat
  author_id : Nat
  content : String
  api : ApiResponse

/-- Process a list of submissions in arrival order. -/
def processAll (g : Globals) (st : BotState) (subs : List Submission) : BotState :=
  subs.foldl (fun s sub => (on_message g s sub.server_id sub.author_id sub.content sub.api).state) st

/-- Every stored karma value in the `member` table is non-negative. -/
def karmaInvariant (db : DB) : Prop :=
  ∀ p ∈ db.members, 0 ≤ p.2.karma

instance (db : DB) : Decidable (karmaInvariant db) := by
  unfold karmaInvariant; infer_instance

/-! ## Concrete fixtures (for counterexamples and witnesses) -/

/-- A concrete instantiation of the `consts` data: lower-case ASCII plus
hyphen as the alphabet, `qq` globally 2-letter-blacklisted, `badword`
globally n-letter-blacklisted, a 3-letter whitelist of `cat` / `dog`, penalty
2, history capacity 5, multi-player mode, constant base score 1. -/
def exampleGlobals : Globals where
  possible_characters := "abcdefghijklmnopqrstuvwxyz-".toList
  blacklist2 := ["qq"]
  blacklistN := ["badword"]
  whitelist3 := ["cat", "dog"]
  special_reaction_emojis := []
  mistake_penalty := 2
  history_length := 5
  single_player := false
  base_karma := fun _ => 1

/-- A fresh config: no chain yet. -/
def emptyConfig : Config := ⟨0, none, 0, none, false, none, 0⟩

/-- Empty database. -/
def emptyDB : DB := ⟨[], [], [], [], []⟩

/-- A fresh bot state. -/
def exampleState : BotState := ⟨emptyConfig, emptyDB, [], [], false⟩

/-- The fresh state with `zz` whitelisted for server 1. -/
def whitelistedState : BotState :=
  { exampleState with db := { emptyDB with whitelist := [(1, "zz")] } }

/-- A mid-game state: chain at length 4 on current word `winter` (ends in
`r`) held by member 7, high score 10, member 2 already on record. -/
def midGameState : BotState :=
  { exampleState with
    config := { emptyConfig with
      current_count := 4,
      current_word := some "winter",
      high_score := 10,
      current_member_id := some 7 },
    db := { emptyDB with members := [((1, 2), ⟨3, 5, 2, 6⟩)] } }

/-- The mid-game state with the failed-role feature on, member 2 designated
as failed member with 29 consecutive correct inputs. -/
def failedState : BotState :=
  { midGameState with
    failedRole := true,
    config := { midGameState.config with
      failed_member_id := some 2,
      correct_inputs_by_failed_member := 29 } }

/-! ## Helper lemmas -/

theorem insertMemberIfAbsent_whitelist (db : DB) (s m : Nat) :
    (db.insertMemberIfAbsent s m).whitelist = db.whitelist := by
  unfold DB.insertMemberIfAbsent; split <;> rfl

theorem insertMemberIfAbsent_blacklist (db : DB) (s m : Nat) :
    (db.insertMemberIfAbsent s m).blacklist = db.blacklist := by
  unfold DB.insertMemberIfAbsent; split <;> rfl

theorem insertMemberIfAbsent_used_words (db : DB) (s m : Nat) :
    (db.insertMemberIfAbsent s m).used_words = db.used_words := by
  unfold DB.insertMemberIfAbsent; split <;> rfl

theorem insertMemberIfAbsent_word_cache (db : DB) (s m : Nat) :
    (db.insertMemberIfAbsent s m).word_cache = db.word_cache := by
  unfold DB.insertMemberIfAbsent; split <;> rfl

/-- A 3-letter word outside the global 3-letter whitelist is blacklisted,
whatever the database, scope or connection (main.py line 735). -/
theorem three_letter_blacklisted (g : Globals) (db : DB) (word : String)
    (sid : Option Nat) (conn : Bool)
    (h3 : word.length = 3) (hnw : word ∉ g.whitelist3) :
    is_word_blacklisted g db word sid conn = true := by
  unfold is_word_blacklisted
  split_ifs with h1 h2
  · rfl
  · rfl
  · exact absurd ⟨h3, hnw⟩ h2

/-- With `server_id` or the connection omitted, `is_word_blacklisted` never
reads the database (main.py line 739): its verdict is the same for any two
databases. -/
theorem blacklisted_global_only (g : Globals) (db db' : DB) (word : String)
    (sid : Option Nat) (conn : Bool) (h : sid = none ∨ conn = false) :
    is_word_blacklisted g db word sid conn = is_word_blacklisted g db' word sid conn := by
  unfold is_word_blacklisted
  split_ifs
  · rfl
  · rfl
  · rcases h with rfl | rfl
    · rfl
    · cases sid <;> rfl

/-- A member row present before `insertMemberIfAbsent` is still found,
unchanged, afterwards. -/
theorem lookup_insertMemberIfAbsent (db : DB) (s m : Nat) (key : Nat × Nat) (row : MemberRow)
    (h : db.members.lookup key = some row) :
    (db.insertMemberIfAbsent s m).members.lookup key = some row := by
  unfold DB.insertMemberIfAbsent
  split
  · exact h
  · rename_i hnone
    have hne : key ≠ (s, m) := by
      intro hk
      rw [hk] at h
      rw [Option.not_isSome_iff_eq_none] at hnone
      unfold DB.memberLookup at hnone
      rw [hnone] at h
      exact Option.noConfusion h
    have hbeq : (key == (s, m)) = false := beq_eq_false_iff_ne.mpr hne
    simp [List.lookup, hbeq, h]

/-- `insertMemberIfAbsent` is the identity when the member already exists. -/
theorem insertMemberIfAbsent_of_isSome (db : DB) (s m : Nat)
    (h : (db.memberLookup s m).isSome) : db.insertMemberIfAbsent s m = db := by
  unfold DB.insertMemberIfAbsent
  rw [if_pos h]

set_option maxHeartbeats 2000000 in
/-- When a run ends in `backendError`, its state is the input state with only
the up-front member-row insertion applied. -/
theorem on_message_backendError_state (g : Globals) (st : BotState)
    (server_id author_id : Nat) (content : String) (api : ApiResponse)
    (h : (on_message g st server_id author_id content api).outcome = Outcome.backendError) :
    (on_message g st server_id author_id content api).state =
      { st with db := st.db.insertMemberIfAbsent server_id author_id } := by
  simp only [on_message] at h ⊢
  split_ifs at h ⊢
  rfl

set_option maxHeartbeats 2000000 in
/-- When a run ends in acceptance, its state is `acceptSubmission` applied
after the up-front member-row insertion. -/
theorem on_message_accepted_state (g : Globals) (st : BotState)
    (server_id author_id : Nat) (content : String) (api : ApiResponse)
    (hacc : ((on_message g st server_id author_id content api).outcome).isAccepted = true) :
    (on_message g st server_id author_id content api).state =
      (acceptSubmission g { st with db := st.db.insertMemberIfAbsent server_id author_id }
        server_id author_id (lowercase content)).1 := by
  simp only [on_message] at hacc ⊢
  split_ifs at hacc ⊢
  all_goals try (exfalso; simp [Outcome.isAccepted] at hacc; done)
  rfl

/-- The failed-member designation after an accepted word (main.py lines
496-502): cleared when the streak counter reaches the threshold, advanced to
`some a` otherwise, untouched for any other author. -/
theorem acceptSubmission_failed_member (g : Globals) (st : BotState) (s a : Nat) (w : String) :
    (acceptSubmission g st s a w).1.config.failed_member_id =
      if st.failedRole = true ∧ st.config.failed_member_id = some a then
        (if 30 ≤ st.config.correct_inputs_by_failed_member + 1 then none else some a)
      else st.config.failed_member_id := by
  have h1 : ((st.config.update_current a w).reaction_emoji).2.failed_member_id =
      st.config.failed_member_id := by
    unfold Config.reaction_emoji Config.update_current
    split_ifs <;> rfl
  have h2 : ((st.config.update_current a w).reaction_emoji).2.correct_inputs_by_failed_member =
      st.config.correct_inputs_by_failed_member := by
    unfold Config.reaction_emoji Config.update_current
    split_ifs <;> rfl
  simp only [acceptSubmission, h1, h2]
  split_ifs <;> simp_all [h1]

/-- The failed member's consecutive-correct counter after an accepted word. -/
theorem acceptSubmission_correct_inputs (g : Globals) (st : BotState) (s a : Nat) (w : String) :
    (acceptSubmission g st s a w).1.config.correct_inputs_by_failed_member =
      if st.failedRole = true ∧ st.config.failed_member_id = some a then
        (if 30 ≤ st.config.correct_inputs_by_failed_member + 1 then 0
         else st.config.correct_inputs_by_failed_member + 1)
      else st.config.correct_inputs_by_failed_member := by
  have h1 : ((st.config.update_current a w).reaction_emoji).2.failed_member_id =
      st.config.failed_member_id := by
    unfold Config.reaction_emoji Config.update_current
    split_ifs <;> rfl
  have h2 : ((st.config.update_current a w).reaction_emoji).2.correct_inputs_by_failed_member =
      st.config.correct_inputs_by_failed_member := by
    unfold Config.reaction_emoji Config.update_current
    split_ifs <;> rfl
  simp only [acceptSubmission, h1, h2]
  split_ifs <;> simp_all [h2]

/-- `insertMemberIfAbsent` preserves non-negativity of all stored karma:
the inserted row carries karma 0. -/
theorem karmaInvariant_insertMemberIfAbsent (db : DB) (s m : Nat)
    (h : karmaInvariant db) : karmaInvariant (db.insertMemberIfAbsent s m) := by
  unfold DB.insertMemberIfAbsent
  split
  · exact h
  · intro p hp
    rcases List.mem_cons.mp hp with rfl | hp
    · norm_num [zeroMemberRow]
    · exact h p hp

/-- `updateMember` preserves non-negativity of all stored karma whenever the
row transformer does. -/
theorem karmaInvariant_updateMember (db : DB) (s m : Nat) (f : MemberRow → MemberRow)
    (hf : ∀ r, 0 ≤ (f r).karma) (h : karmaInvariant db) :
    karmaInvariant (db.updateMember s m f) := by
  unfold DB.updateMember
  intro p hp
  simp only [List.mem_map] at hp
  obtain ⟨q, hq, rfl⟩ := hp
  split
  · exact hf q.2
  · exact h q hq

/-- The mistake penalty is applied as `max(0, karma - MISTAKE_PENALTY)`, so
`handle_mistake` preserves the karma floor. -/
theorem karmaInvariant_handle_mistake (g : Globals) (st : BotState) (s a : Nat)
    (h : karmaInvariant st.db) : karmaInvariant (handle_mistake g st s a).db := by
  unfold handle_mistake
  exact karmaInvariant_updateMember st.db s a _ (fun r => le_max_left 0 _) h

/-- The per-word karma delta is applied as `max(0, karma + delta)`, so
acceptance preserves the karma floor even for a negative delta. -/
theorem karmaInvariant_accept (g : Globals) (st : BotState) (s a : Nat) (w : String)
    (h : karmaInvariant st.db) : karmaInvariant (acceptSubmission g st s a w).1.db := by
  unfold acceptSubmission
  exact karmaInvariant_updateMember st.db s a
    (fun r =>
      { r with
        score := r.score + 1,
        correct := r.correct + 1,
        karma := max 0 (r.karma + calculate_total_karma g w (historyGet st.history a)) })
    (fun r => le_max_left 0 _) h

/-- One processed message preserves the karma floor, along every branch of
the pipeline. -/
theorem karmaInvariant_step (g : Globals) (st : BotState) (server_id author_id : Nat)
    (content : String) (api : ApiResponse) (h : karmaInvariant st.db) :
    karmaInvariant (on_message g st server_id author_id content api).state.db := by
  have hins : karmaInvariant (st.db.insertMemberIfAbsent server_id author_id) :=
    karmaInvariant_insertMemberIfAbsent st.db server_id author_id h
  simp only [on_message]
  split_ifs
  all_goals first
    | exact h
    | exact hins
    | exact karmaInvariant_handle_mistake g _ server_id author_id hins
    | exact karmaInvariant_accept g _ server_id author_id _ hins

/-! ## The claims -/

/-- **C9**: the reaction marker policy.  For `Config.reaction_emoji`
(main.py): a count equal to the all-time high score with the one-time marker
not yet shown yields 🎉 and sets the suppression flag; otherwise the fixed
round-number table (100 💯, 69 😏, 666 👹) applies, defaulting to the generic
✅, and the flag is left alone — in particular, with the flag set, 🎉 is
never produced again until a reset clears the flag.  For
`ServerConfig.reaction_emoji` (model.py) the same policy holds, with the
alternative generic marker ☑️ on a repeat of the high score inside the same
streak. -/
theorem claim_C9 (c : Config) (sc : ServerConfig) :
    (c.current_count = c.high_score ∧ c.put_high_score_emoji = false →
      c.reaction_emoji = ("🎉", { c with put_high_score_emoji := true })) ∧
    (c.current_count ≠ c.high_score ∨ c.put_high_score_emoji = true →
      c.reaction_emoji = ((specialEmoji c.current_count).getD "✅", c)) ∧
    (c.put_high_score_emoji = true → (c.reaction_emoji).1 ≠ "🎉") ∧
    (sc.current_count = sc.high_score ∧ sc.used_high_score_emoji = false →
      sc.reaction_emoji = ("🎉", { sc with used_high_score_emoji := true })) ∧
    (sc.current_count = sc.high_score ∧ sc.used_high_score_emoji = true →
      sc.reaction_emoji = ((specialEmoji sc.current_count).getD "☑️", sc)) ∧
    (sc.current_count ≠ sc.high_score →
      sc.reaction_emoji = ((specialEmoji sc.current_count).getD "✅", sc)) := by
  have hspec : ∀ n : Nat, (specialEmoji n).getD "✅" ≠ "🎉" := by
    intro n
    unfold specialEmoji
    split_ifs <;> decide
  refine ⟨?_, ?_, ?_, ?_, ?_, ?_⟩
  · intro h
    simp [Config.reaction_emoji, h.1, h.2]
  · intro h
    unfold Config.reaction_emoji
    rcases h with h | h
    · rw [if_neg]
      simp [h]
    · rw [if_neg]
      simp [h]
  · intro h
    unfold Config.reaction_emoji
    rw [if_neg]
    · exact hspec c.current_count
    · simp [h]
  · intro h
    simp [ServerConfig.reaction_emoji, h.1, h.2]
  · intro h
    simp [ServerConfig.reaction_emoji, h.1, h.2]
  · intro h
    simp [ServerConfig.reaction_emoji, h]

/-- Witness for C9 at concrete configs: count 5 = high score 5 with the flag
clear yields 🎉 and sets the flag; count 100 = high score with the flag set
yields 💯. -/
theorem claim_C9_witness :
    (Config.reaction_emoji ⟨5, some "w", 5, some 1, false, none, 0⟩).1 = "🎉" ∧
    (Config.reaction_emoji ⟨5, some "w", 5, some 1, false, none, 0⟩).2.put_high_score_emoji = true ∧
    (Config.reaction_emoji ⟨100, some "w", 100, some 1, true, none, 0⟩).1 = "💯" := by
  have h1 := (claim_C9 ⟨5, some "w", 5, some 1, false, none, 0⟩
    ⟨0, none, 0, none, false, none, 0⟩).1 (by exact ⟨rfl, rfl⟩)
  have h2 := (claim_C9 ⟨100, some "w", 100, some 1, true, none, 0⟩
    ⟨0, none, 0, none, false, none, 0⟩).2.1 (Or.inr rfl)
  refine ⟨?_, ?_, ?_⟩
  · rw [h1]
  · rw [h1]
  · rw [h2]; decide

/-- **C8**: a single-letter submission over the allowed alphabet is a soft
rejection with its own warning: the outcome is the dedicated single-letter
one and the *entire* state — config (count, word, holder), database
(scores/karma, used words, cache), histories — is returned untouched. -/
theorem claim_C8 (g : Globals) (st : BotState) (server_id author_id : Nat)
    (content : String) (api : ApiResponse)
    (hchars : (lowercase content).toList.all (fun c => c ∈ g.possible_characters) = true)
    (hlen : (lowercase content).length = 1) :
    (on_message g st server_id author_id content api).state = st ∧
    (on_message g st server_id author_id content api).outcome = Outcome.singleLetter := by
  unfold on_message
  rw [if_neg (fun hn => hn hchars), if_neg (by simp [hlen]), if_pos hlen]
  exact ⟨rfl, rfl⟩

/-- Witness for C8: submitting `a` to the fresh example state. -/
theorem claim_C8_witness :
    (on_message exampleGlobals exampleState 1 2 "a" ApiResponse.error).state = exampleState ∧
    (on_message exampleGlobals exampleState 1 2 "a" ApiResponse.error).outcome =
      Outcome.singleLetter :=
  claim_C8 exampleGlobals exampleState 1 2 "a" ApiResponse.error (by decide) (by decide)

/-- **C6** (code bug): `Bot.add_to_cache` is intended to be an
ignore-on-conflict insert filtered by the global blacklist, but the insert
statement (main.py line 700) supplies the keyword `words` while
`WordCacheModel` (model.py) only has the column `word`, so SQLAlchemy raises
"Unconsumed column names" for *every* non-blacklisted word and nothing is
ever inserted: draining a cache set containing only `apple` errors out
instead of making `contains("apple")` true. -/
theorem claim_C6_bug_eval :
    add_to_cache exampleGlobals { exampleState with cachedWords := ["apple"] } =
      Except.error "CompileError: Unconsumed column names: words" := rfl

/-- **C1**: for a submission (legal alphabet, length ≥ 2) whose word is
whitelisted for the server, processing never evaluates the blacklist check,
never starts an API query and never resolves one (the effects record is all
`false`); the pipeline proceeds directly to the repetition check, so the
outcome is repetition, a turn-order or starting-letter mistake, or
acceptance — never `blacklisted`, `mistakeNonexistent` or `backendError` —
and the whole run is independent of what the dictionary lookup would have
answered. -/
theorem claim_C1 (g : Globals) (st : BotState) (server_id author_id : Nat)
    (content : String) (api : ApiResponse)
    (hchars : ((lowercase content).toList.all fun c => c ∈ g.possible_characters) = true)
    (hlen : 2 ≤ (lowercase content).length)
    (hwl : (server_id, lowercase content) ∈ st.db.whitelist) :
    (on_message g st server_id author_id content api).effects =
      ⟨false, false, false⟩ ∧
    ((on_message g st server_id author_id content api).outcome = Outcome.alreadyUsed ∨
     (on_message g st server_id author_id content api).outcome = Outcome.mistakeWrongMember ∨
     (on_message g st server_id author_id content api).outcome = Outcome.mistakeWrongLetter ∨
     (∃ e, (on_message g st server_id author_id content api).outcome = Outcome.accepted e)) ∧
    (∀ api2, on_message g st server_id author_id content api2 =
      on_message g st server_id author_id content api) := by
  have hc : ∀ x ∈ (lowercase content).data, x ∈ g.possible_characters := by
    simpa [String.toList, List.all_eq_true] using hchars
  have hnex : ¬ ∃ x ∈ (lowercase content).data, x ∉ g.possible_characters := by
    rintro ⟨x, hx, hnx⟩
    exact hnx (hc x hx)
  have h0 : ¬ (lowercase content).length = 0 := by omega
  have h1 : ¬ (lowercase content).length = 1 := by omega
  have hws : (st.db.insertMemberIfAbsent server_id author_id).whitelist = st.db.whitelist :=
    insertMemberIfAbsent_whitelist st.db server_id author_id
  refine ⟨?_, ?_, ?_⟩
  · simp only [on_message, is_word_whitelisted, hws]
    simp [hnex, h0, h1, hwl]
    split_ifs <;> rfl
  · simp only [on_message, is_word_whitelisted, hws]
    simp [hnex, h0, h1, hwl]
    split_ifs with hr hm hl
    · exact Or.inl rfl
    · exact Or.inr (Or.inl rfl)
    · exact Or.inr (Or.inr (Or.inl rfl))
    · exact Or.inr (Or.inr (Or.inr ⟨_, rfl⟩))
  · intro api2
    simp only [on_message, is_word_whitelisted, hws]
    simp [hnex, h0, h1, hwl]

/-- Witness for C1: submitting the whitelisted `zz` to a fresh state leaves
all three effect flags `false`, and the run does not depend on the
dictionary-lookup oracle. -/
theorem claim_C1_witness :
    (on_message exampleGlobals whitelistedState 1 2 "zz" ApiResponse.error).effects =
      ⟨false, false, false⟩ ∧
    on_message exampleGlobals whitelistedState 1 2 "zz" ApiResponse.wordDoesntExist =
      on_message exampleGlobals whitelistedState 1 2 "zz" ApiResponse.error := by
  have h := claim_C1 exampleGlobals whitelistedState 1 2 "zz" ApiResponse.error
    (by decide) (by decide) (by decide)
  exact ⟨h.1, h.2.2 ApiResponse.wordDoesntExist⟩

/-- **C7**: (i) a word of length exactly 3 that is not in the global
3-letter whitelist is reported blacklisted whatever the database, scope or
connection; (ii) such a word submitted in play (legal alphabet, not
server-whitelisted) is softly rejected as blacklisted with the whole config
— in particular the chain count — unchanged; (iii) with `server_id` or the
connection omitted the verdict never consults the per-server blacklist: it
is identical across arbitrary databases. -/
theorem claim_C7 (g : Globals) :
    (∀ (db : DB) (word : String) (sid : Option Nat) (conn : Bool),
      word.length = 3 → word ∉ g.whitelist3 →
      is_word_blacklisted g db word sid conn = true) ∧
    (∀ (st : BotState) (server_id author_id : Nat) (content : String) (api : ApiResponse),
      ((lowercase content).toList.all fun c => c ∈ g.possible_characters) = true →
      (lowercase content).length = 3 →
      lowercase content ∉ g.whitelist3 →
      (server_id, lowercase content) ∉ st.db.whitelist →
      (on_message g st server_id author_id content api).outcome = Outcome.blacklisted ∧
      (on_message g st server_id author_id content api).state.config = st.config) ∧
    (∀ (db db' : DB) (word : String) (sid : Option Nat) (conn : Bool),
      sid = none ∨ conn = false →
      is_word_blacklisted g db word sid conn = is_word_blacklisted g db' word sid conn) := by
  refine ⟨three_letter_blacklisted g, ?_, blacklisted_global_only g⟩
  intro st server_id author_id content api hchars hlen hnw hnswl
  have hc : ∀ x ∈ (lowercase content).data, x ∈ g.possible_characters := by
    simpa [String.toList, List.all_eq_true] using hchars
  have hnex : ¬ ∃ x ∈ (lowercase content).data, x ∉ g.possible_characters := by
    rintro ⟨x, hx, hnx⟩
    exact hnx (hc x hx)
  have h0 : ¬ (lowercase content).length = 0 := by omega
  have h1 : ¬ (lowercase content).length = 1 := by omega
  have hws : (st.db.insertMemberIfAbsent server_id author_id).whitelist = st.db.whitelist :=
    insertMemberIfAbsent_whitelist st.db server_id author_id
  have hbl : is_word_blacklisted g (st.db.insertMemberIfAbsent server_id author_id)
      (lowercase content) (some server_id) true = true :=
    three_letter_blacklisted g _ _ _ _ hlen hnw
  simp only [on_message, is_word_whitelisted, hws]
  simp [hnex, h0, h1, hnswl, hbl]

/-- Witness for C7: `fox` (3 letters, not in the whitelist of `cat` / `dog`)
is blacklisted with no scope supplied, and in play it is softly rejected
with the config intact. -/
theorem claim_C7_witness :
    is_word_blacklisted exampleGlobals emptyDB "fox" none false = true ∧
    (on_message exampleGlobals exampleState 1 2 "fox" ApiResponse.error).outcome =
      Outcome.blacklisted ∧
    (on_message exampleGlobals exampleState 1 2 "fox" ApiResponse.error).state.config =
      exampleState.config := by
  have h := claim_C7 exampleGlobals
  have h2 := h.2.1 exampleState 1 2 "fox" ApiResponse.error
    (by decide) (by decide) (by decide) (by decide)
  exact ⟨h.1 emptyDB "fox" none false (by decide) (by decide), h2.1, h2.2⟩

/-- **C2 counterexample**: the claim says an Error verdict from the lookup
produces *no* state mutation at all, the player's score/correct/wrong/karma
included.  But main.py lines 316-339 insert (and commit) a zero-initialized
member row *before* any validation: a first-time player whose submission
ends in `backendError` leaves a new row behind — their stats go from absent
to recorded zeros, so the members table is mutated. -/
theorem claim_C2_counterexample :
    (on_message exampleGlobals exampleState 1 2 "zz" ApiResponse.error).outcome =
      Outcome.backendError ∧
    exampleState.db.memberLookup 1 2 = none ∧
    (on_message exampleGlobals exampleState 1 2 "zz" ApiResponse.error).state.db.memberLookup 1 2 =
      some zeroMemberRow := by decide

/-- **C2 (amended)**: when the lookup resolves to Error, no *game* state is
mutated — config (count, word, holder) unchanged, used words, word cache,
pending-cache set and karma histories unchanged, and every member row that
existed before is still there unchanged; the only possible difference is the
zero-initialized row inserted up front for a first-time submitter, so for a
player already on record the state is exactly the input state. -/
theorem claim_C2_amended (g : Globals) (st : BotState) (server_id author_id : Nat)
    (content : String) (api : ApiResponse)
    (h : (on_message g st server_id author_id content api).outcome = Outcome.backendError) :
    (on_message g st server_id author_id content api).state.config = st.config ∧
    (on_message g st server_id author_id content api).state.db =
      st.db.insertMemberIfAbsent server_id author_id ∧
    (on_message g st server_id author_id content api).state.cachedWords = st.cachedWords ∧
    (on_message g st server_id author_id content api).state.history = st.history ∧
    (on_message g st server_id author_id content api).state.db.used_words = st.db.used_words ∧
    (on_message g st server_id author_id content api).state.db.word_cache = st.db.word_cache ∧
    (∀ key row, st.db.members.lookup key = some row →
      (on_message g st server_id author_id content api).state.db.members.lookup key = some row) ∧
    ((st.db.memberLookup server_id author_id).isSome = true →
      (on_message g st server_id author_id content api).state = st) := by
  rw [on_message_backendError_state g st server_id author_id content api h]
  refine ⟨rfl, rfl, rfl, rfl,
    insertMemberIfAbsent_used_words st.db server_id author_id,
    insertMemberIfAbsent_word_cache st.db server_id author_id, ?_, ?_⟩
  · intro key row hk
    exact lookup_insertMemberIfAbsent st.db server_id author_id key row hk
  · intro hs
    rw [insertMemberIfAbsent_of_isSome st.db server_id author_id hs]

/-- Witness for the amended C2: member 2 (already on record) submits `rain`
mid-game and the lookup errors — the state is exactly as before. -/
theorem claim_C2_witness :
    (on_message exampleGlobals midGameState 1 2 "rain" ApiResponse.error).state =
      midGameState := by
  have h := claim_C2_amended exampleGlobals midGameState 1 2 "rain" ApiResponse.error (by decide)
  exact h.2.2.2.2.2.2.2 (by decide)

/-- **C3 counterexample**: the claim says *every* rejected submission resets
the chain count to zero, soft rejections included.  But a blacklisted word
is a soft rejection that leaves the config — count included — untouched:
submitting the globally blacklisted `qq` at count 4 keeps the count at 4. -/
theorem claim_C3_counterexample :
    (on_message exampleGlobals midGameState 1 2 "qq" ApiResponse.error).outcome =
      Outcome.blacklisted ∧
    (on_message exampleGlobals midGameState 1 2 "qq" ApiResponse.error).state.config.current_count
      = 4 := by decide

/-- **C3 (amended)**: only *mistakes* (wrong member, wrong starting letter,
nonexistent word) reset the running count to zero, and they retain the
current word and current holder, so the next expected starting letter stays
derivable; soft rejections (single letter, blacklisted, repeated word) leave
the whole config — count included — unchanged. -/
theorem claim_C3_amended (g : Globals) (st : BotState) (server_id author_id : Nat)
    (content : String) (api : ApiResponse) :
    ((on_message g st server_id author_id content api).outcome = Outcome.mistakeWrongMember ∨
     (on_message g st server_id author_id content api).outcome = Outcome.mistakeWrongLetter ∨
     (on_message g st server_id author_id content api).outcome = Outcome.mistakeNonexistent →
      (on_message g st server_id author_id content api).state.config.current_count = 0 ∧
      (on_message g st server_id author_id content api).state.config.current_word =
        st.config.current_word ∧
      (on_message g st server_id author_id content api).state.config.current_member_id =
        st.config.current_member_id) ∧
    ((on_message g st server_id author_id content api).outcome = Outcome.singleLetter ∨
     (on_message g st server_id author_id content api).outcome = Outcome.blacklisted ∨
     (on_message g st server_id author_id content api).outcome = Outcome.alreadyUsed →
      (on_message g st server_id author_id content api).state.config = st.config) := by
  simp only [on_message]
  split_ifs <;> refine ⟨fun hout => ?_, fun hout => ?_⟩ <;>
    first
      | (exfalso; simp at hout; done)
      | rfl
      | (refine ⟨?_, ?_, ?_⟩ <;> simp [handle_mistake, Config.reset] <;> split <;> rfl)

/-- Witness for the amended C3: `dunes` does not start with the `r` of
`winter`, a mistake — the count drops from 4 to 0 while the current word and
holder are retained. -/
theorem claim_C3_witness :
    (on_message exampleGlobals midGameState 1 2 "dunes" ApiResponse.wordExists).state.config.current_count = 0 ∧
    (on_message exampleGlobals midGameState 1 2 "dunes" ApiResponse.wordExists).state.config.current_word =
      midGameState.config.current_word ∧
    (on_message exampleGlobals midGameState 1 2 "dunes" ApiResponse.wordExists).state.config.current_member_id =
      midGameState.config.current_member_id := by
  have h := (claim_C3_amended exampleGlobals midGameState 1 2 "dunes" ApiResponse.wordExists).1
    (Or.inr (Or.inl (by decide)))
  exact h

/-- **C4** (spec-modelled): karma decay is monotonic in the repeat count.
For a word with non-negative base score, scoring it against a history with
at least as many same-ending-letter entries yields a value ≤ scoring it
against the history with fewer such entries.  (`calculate_total_karma`
lives in the module `data` / `karma_calcs`, which is not under `src/`; the
scorer here is modelled from spec §4.6, see its docstring.) -/
theorem claim_C4 (g : Globals) (word : String) (hist1 hist2 : List String)
    (hbase : 0 ≤ g.base_karma word)
    (hcount : (hist2.filter (fun w => endingLetter w = endingLetter word)).length ≤
              (hist1.filter (fun w => endingLetter w = endingLetter word)).length) :
    calculate_total_karma g word hist1 ≤ calculate_total_karma g word hist2 := by
  simp only [calculate_total_karma]
  rw [if_neg (not_lt.mpr hbase), if_neg (not_lt.mpr hbase)]
  have hc : (0:ℚ) < (g.history_length : ℚ) + 1 := by positivity
  have key : (g.history_length : ℚ) + 1 -
      ((hist1.filter (fun w => endingLetter w = endingLetter word)).length : ℚ) ≤
      (g.history_length : ℚ) + 1 -
      ((hist2.filter (fun w => endingLetter w = endingLetter word)).length : ℚ) := by
    apply sub_le_sub_left
    exact_mod_cast hcount
  exact div_le_div_of_nonneg_right (mul_le_mul_of_nonneg_left key hbase) hc.le

/-- Witness for C4: `grape` (base score 1 ≥ 0) scored against a history with
two recent e-ending words is at most its score against an empty history. -/
theorem claim_C4_witness :
    calculate_total_karma exampleGlobals "grape" ["see", "bee"] ≤
      calculate_total_karma exampleGlobals "grape" [] :=
  claim_C4 exampleGlobals "grape" ["see", "bee"] [] (by decide) (by decide)

/-- **C5**: the karma floor.  Whatever sequence of submissions is processed
— accepted words, mistakes, soft rejections in any interleaving — every
stored karma value in the member table stays ≥ 0, because the mistake
penalty is applied as `max(0, karma - MISTAKE_PENALTY)` and the per-word
delta as `max(0, karma + delta)` (main.py lines 476 and 527), and new rows
start at karma 0. -/
theorem claim_C5 (g : Globals) (st : BotState) (subs : List Submission)
    (h : karmaInvariant st.db) : karmaInvariant (processAll g st subs).db := by
  induction subs generalizing st with
  | nil => exact h
  | cons s rest ih =>
      exact ih _ (karmaInvariant_step g st s.server_id s.author_id s.content s.api h)

/-- Witness for C5: a concrete session — an accepted word, a wrong-letter
mistake by the same player, a backend fault, a blacklisted word — keeps all
stored karma values non-negative. -/
theorem claim_C5_witness :
    karmaInvariant (processAll exampleGlobals midGameState
      [⟨1, 2, "rain", ApiResponse.wordExists⟩,
       ⟨1, 2, "dunes", ApiResponse.wordExists⟩,
       ⟨1, 2, "zz", ApiResponse.error⟩,
       ⟨1, 2, "qq", ApiResponse.error⟩]).db :=
  claim_C5 exampleGlobals midGameState _ (by decide)

/-- **C10**: with a failed role configured, an accepted word by the
designated failed member advances their consecutive-correct counter by one,
and exactly when it reaches 30 the designation is cleared
(`failed_member_id` set to `None`, counter reset to 0); an accepted word by
any other player leaves both the designation and the counter unchanged. -/
theorem claim_C10 (g : Globals) (st : BotState) (server_id author_id : Nat)
    (content : String) (api : ApiResponse)
    (hrole : st.failedRole = true)
    (hacc : ((on_message g st server_id author_id content api).outcome).isAccepted = true) :
    (st.config.failed_member_id = some author_id →
      st.config.correct_inputs_by_failed_member < 30 →
      ((st.config.correct_inputs_by_failed_member + 1 = 30 →
        (on_message g st server_id author_id content api).state.config.failed_member_id = none ∧
        (on_message g st server_id author_id content api).state.config.correct_inputs_by_failed_member = 0) ∧
       (st.config.correct_inputs_by_failed_member + 1 ≠ 30 →
        (on_message g st server_id author_id content api).state.config.failed_member_id = some author_id ∧
        (on_message g st server_id author_id content api).state.config.correct_inputs_by_failed_member =
          st.config.correct_inputs_by_failed_member + 1))) ∧
    (st.config.failed_member_id ≠ some author_id →
      (on_message g st server_id author_id content api).state.config.failed_member_id =
        st.config.failed_member_id ∧
      (on_message g st server_id author_id content api).state.config.correct_inputs_by_failed_member =
        st.config.correct_inputs_by_failed_member) := by
  have hst := on_message_accepted_state g st server_id author_id content api hacc
  rw [hst, acceptSubmission_failed_member, acceptSubmission_correct_inputs]
  dsimp only
  constructor
  · intro hfm hlt
    refine ⟨fun heq => ?_, fun hne => ?_⟩
    · rw [if_pos ⟨hrole, hfm⟩, if_pos (by omega : 30 ≤ st.config.correct_inputs_by_failed_member + 1),
        if_pos ⟨hrole, hfm⟩, if_pos (by omega : 30 ≤ st.config.correct_inputs_by_failed_member + 1)]
      exact ⟨rfl, rfl⟩
    · rw [if_pos ⟨hrole, hfm⟩, if_neg (by omega), if_pos ⟨hrole, hfm⟩, if_neg (by omega)]
      exact ⟨rfl, rfl⟩
  · intro hfm
    rw [if_neg (fun hc => hfm hc.2), if_neg (fun hc => hfm hc.2)]
    exact ⟨rfl, rfl⟩

/-- Witness for C10: the designated failed member (29 correct inputs so far)
submits an accepted word — the 30th clears the designation and resets the
counter. -/
theorem claim_C10_witness :
    (on_message exampleGlobals failedState 1 2 "rain" ApiResponse.wordExists).state.config.failed_member_id = none ∧
    (on_message exampleGlobals failedState 1 2 "rain" ApiResponse.wordExists).state.config.correct_inputs_by_failed_member = 0 := by
  have h := claim_C10 exampleGlobals failedState 1 2 "rain" ApiResponse.wordExists
    (by decide) (by decide)
  exact (h.1 (by decide) (by decide)).1 (by decide)

end WordChain
